import Mathlib

/-!
Verification of the spearfishing condition-scoring pipeline
(`spearfishing_gui.py`): a shallow embedding of the JSON data model,
the three rating functions (`compute_openmeteo_rating`,
`compute_metservice_rating`, `compute_image_rating`) and the message
composition in `daily_task`, together with theorems checking the
specified behaviour.

Conventions of the embedding:
* Python/JSON values are the inductive `Json`; Python `None` is `Json.null`.
* Numbers are modelled as rationals (`ℚ`); the fixed thresholds 1.0, 7.7,
  50 are the corresponding exact rationals.
* An operation that can raise a Python exception returns `Except String`
  (for the Open-Meteo accessors, where the exception text feeds the
  reason string) or `Option` (elsewhere); `Except.error` / `none` means
  the exception escapes.
* String rendering of numbers (`f"{value}"`) is abstracted by `numRepr`.
-/

namespace Spearfishing

/-- JSON values as produced by `fetch_json`, plus `null` for Python `None`
(the fetch-failure marker). -/
inductive Json where
  | null : Json
  | bool : Bool → Json
  | num : ℚ → Json
  | str : String → Json
  | arr : List Json → Json
  | obj : List (String × Json) → Json

/-- Python truthiness (`bool(x)`): `None`, `False`, `0`, `""`, `[]`, `{}`
are falsy, everything else truthy. -/
def pyTruthy : Json → Bool
  | .null => false
  | .bool b => b
  | .num q => q ≠ 0
  | .str s => s ≠ ""
  | .arr xs => ¬ xs.isEmpty
  | .obj fs => ¬ fs.isEmpty

/-- First binding of a key in an association list (Python dict lookup). -/
def dictGet (fs : List (String × Json)) (k : String) : Option Json :=
  (fs.find? (fun p => p.1 = k)).map (fun p => p.2)

/-- Python `x == k` for a string literal `k`: only equal strings compare
equal; values of other types are simply unequal (no exception). -/
def jsonEqStr (j : Json) (k : String) : Bool :=
  match j with
  | .str t => t = k
  | _ => false

/-- Test whether `pat` is a prefix of `s` (character lists). -/
def isPrefixOfL : List Char → List Char → Bool
  | [], _ => true
  | _ :: _, [] => false
  | a :: as, b :: bs => a == b && isPrefixOfL as bs

/-- Test whether `pat` occurs as a contiguous substring of `s` (character lists). -/
def containsSub (s pat : List Char) : Bool :=
  match s with
  | [] => pat.isEmpty
  | _ :: rest => isPrefixOfL pat s || containsSub rest pat

/-- Python `pat in s` for strings: substring containment. -/
def strContains (s pat : String) : Bool :=
  containsSub s.data pat.data

/-- Python `k in j` (membership test). Defined for dicts (key lookup),
lists (element equality) and strings (substring); on other values the
test raises `TypeError`, modelled as `none`. -/
def pyMem (j : Json) (k : String) : Option Bool :=
  match j with
  | .obj fs => some (fs.any (fun p => p.1 = k))
  | .arr xs => some (xs.any (fun x => jsonEqStr x k))
  | .str s => some (strContains s k)
  | _ => none

/-- Python `j[k]` for a string key: succeeds only on a dict containing
the key; a missing key raises `KeyError`, any other value raises
`TypeError`. -/
def pyGetE (j : Json) (k : String) : Except String Json :=
  match j with
  | .obj fs =>
    match dictGet fs k with
    | some v => .ok v
    | none => .error ("KeyError: " ++ k)
  | _ => .error "TypeError"

/-- Python `j[0]`: first element of a list, first character of a string;
empty sequences raise `IndexError`, non-sequences `TypeError`. -/
def pyIndex0E (j : Json) : Except String Json :=
  match j with
  | .arr (x :: _) => .ok x
  | .arr [] => .error "IndexError"
  | .str s =>
    match s.data with
    | c :: _ => .ok (.str (String.mk [c]))
    | [] => .error "IndexError"
  | _ => .error "TypeError"

/-- Coercion of a value to a number for an order comparison against a
float literal: numbers compare directly, booleans as 0/1; any other
value raises `TypeError`. -/
def pyAsNumE (j : Json) : Except String ℚ :=
  match j with
  | .num q => .ok q
  | .bool b => .ok (if b then 1 else 0)
  | _ => .error "TypeError"

/-- Abstraction of Python number formatting `f"{value}"`. -/
def numRepr (q : ℚ) : String := toString q

/-- ASCII model of Python `str.lower()`. -/
def pyLower (s : String) : String := String.mk (s.data.map Char.toLower)

/-- Access `marine["daily"]["wave_height_max"][0]` followed by the numeric
comparison, as one fallible accessor. -/
def getWave (marine : Json) : Except String ℚ :=
  (pyGetE marine "daily").bind fun d =>
  (pyGetE d "wave_height_max").bind fun a =>
  (pyIndex0E a).bind pyAsNumE

/-- Access `weather["hourly"]["wind_speed_10m"][0]` followed by the numeric
comparison, as one fallible accessor. -/
def getWind (weather : Json) : Except String ℚ :=
  (pyGetE weather "hourly").bind fun h =>
  (pyGetE h "wind_speed_10m").bind fun a =>
  (pyIndex0E a).bind pyAsNumE

/-- Access `weather["hourly"]["precipitation_probability"][0]` followed by the
numeric comparison, as one fallible accessor. -/
def getPrecip (weather : Json) : Except String ℚ :=
  (pyGetE weather "hourly").bind fun h =>
  (pyGetE h "precipitation_probability").bind fun a =>
  (pyIndex0E a).bind pyAsNumE

/-- The reason string appended inside the `except` block:
`f"Failed to parse data: {exc}"`. -/
def parseFailMsg (e : String) : String := "Failed to parse data: " ++ e

/-- Embedding of `compute_openmeteo_rating(marine, weather)`.

The source starts with `rating = 100`, `reasons = []`, then inside one
`try` block applies the swell, wind and rain penalties in order, each
appending its reason when triggered; an exception anywhere sets
`rating = 0` and appends the parse-failure reason to the reasons already
collected.  Finally `rating = max(0, rating)`. -/
def compute_openmeteo_rating (marine weather : Json) : ℤ × List String :=
  match getWave marine with
  | .error e => (max 0 0, [parseFailMsg e])
  | .ok w =>
    let r1 : ℤ := if w > 1 then 100 - 40 else 100
    let rs1 : List String := if w > 1 then ["Swell " ++ numRepr w ++ " m"] else []
    match getWind weather with
    | .error e => (max 0 0, rs1 ++ [parseFailMsg e])
    | .ok ws =>
      let r2 : ℤ := if ws > 77/10 then r1 - 30 else r1
      let rs2 : List String := rs1 ++ (if ws > 77/10 then ["Wind " ++ numRepr ws ++ " m/s"] else [])
      match getPrecip weather with
      | .error e => (max 0 0, rs2 ++ [parseFailMsg e])
      | .ok p =>
        let r3 : ℤ := if p > 50 then r2 - 30 else r2
        let rs3 : List String := rs2 ++ (if p > 50 then ["Chance of rain"] else [])
        (max 0 r3, rs3)

/-- Python `day0.get(k, "")` followed by use of the result as a string:
`some ""` when the key is missing, the string value when present.
`none` when `day0` is not a dict (`AttributeError`) or when the value is
not a string (for `"forecastWord"` the subsequent `.lower()` raises
`AttributeError`; for `"forecast"` a non-string value makes the later
`"\n".join` in `daily_task` raise — the model surfaces that failure at
this call). -/
def pyGetStrField (j : Json) (k : String) : Option String :=
  match j with
  | .obj fs =>
    match dictGet fs k with
    | none => some ""
    | some (.str s) => some s
    | some _ => none
  | _ => none

/-- Embedding of `compute_metservice_rating(forecast)`.  `none` means the
function raises (there is no `try` in the source): this happens e.g. when
`forecast["days"]` is an empty list (`[0]` raises `IndexError`). -/
def compute_metservice_rating (forecast : Json) : Option (ℤ × List String) :=
  if pyTruthy forecast = false then some (0, ["No MetService data"])
  else
    match pyMem forecast "days" with
    | none => none
    | some false => some (0, ["No MetService data"])
    | some true =>
      match (pyGetE forecast "days").toOption with
      | none => none
      | some days =>
        match (pyIndex0E days).toOption with
        | none => none
        | some day0 =>
          match pyGetStrField day0 "forecastWord" with
          | none => none
          | some word =>
            let text := pyLower word
            let rating : ℤ :=
              if strContains text "rain" || strContains text "shower" then 30
              else if strContains text "fine" || strContains text "clear" || strContains text "sunny" then 90
              else if strContains text "cloud" then 60
              else 60
            if text = "" then some (rating, [])
            else
              match pyGetStrField day0 "forecast" with
              | none => none
              | some fc => some (rating, [fc])

/-- Input to `compute_image_rating`: the bytes may be absent/empty
(`if not data`), fail to decode (`Image.open` raises, caught), or decode
to a grayscale pixel list. -/
inductive ImageInput where
  | absent : ImageInput
  | bad : ImageInput
  | pixels : List ℕ → ImageInput

/-- Mean pixel intensity `sum(pixels) / len(pixels)` as a rational. -/
def avgIntensity (px : List ℕ) : ℚ := (px.sum : ℚ) / (px.length : ℚ)

/-- Embedding of `compute_image_rating(data)`: 0 on absent input or any
decode error (including the `ZeroDivisionError` of an empty pixel list,
caught by the same `except`); otherwise the brightness step function. -/
def compute_image_rating : ImageInput → ℤ
  | .absent => 0
  | .bad => 0
  | .pixels px =>
    if px.isEmpty then 0
    else
      let avg := avgIntensity px
      if avg > 150 then 90
      else if avg > 80 then 70
      else 40

/-- Truncation toward zero of a rational, modelling Python `int(float)`. -/
def ratTrunc (q : ℚ) : ℤ := if 0 ≤ q then ⌊q⌋ else -⌊-q⌋

/-- Overall score `int(sum(all_ratings) / len(all_ratings))` for the three
ratings, as computed in `daily_task` (float division then `int` truncation). -/
def overall_rating (a b c : ℤ) : ℤ := ratTrunc (((a : ℚ) + b + c) / 3)

/-- Join a list of lines with newlines, Python `"\n".join(lines)`. -/
def joinNL : List String → String
  | [] => ""
  | [s] => s
  | s :: t :: rest => s ++ "\n" ++ joinNL (t :: rest)

/-- Embedding of the pure core of `daily_task`: given the three fetched
JSON payloads and the webcam image, the message string handed to
`send_email`.  `none` means the run raises (which can only come from
`compute_metservice_rating`, see above). -/
def daily_message (marine weather forecast : Json) (img : ImageInput) :
    Option String :=
  let om := compute_openmeteo_rating marine weather
  match compute_metservice_rating forecast with
  | none => none
  | some mr =>
    let cam := compute_image_rating img
    let lines1 : List String :=
      ["Open-Meteo rating: " ++ toString om.1,
       "MetService rating: " ++ toString mr.1,
       "CawthronEye rating: " ++ toString cam,
       "Overall rating: " ++ toString (overall_rating om.1 mr.1 cam)]
    let reasons := om.2 ++ mr.2
    let lines2 :=
      if reasons.isEmpty then lines1
      else lines1 ++ [joinNL ("Reasons:" :: reasons)]
    some (joinNL lines2)

/-- A well-formed marine payload carrying one daily max wave height. -/
def mkMarine (w : ℚ) : Json :=
  Json.obj [("daily", Json.obj [("wave_height_max", Json.arr [Json.num w])])]

/-- A well-formed weather payload carrying one hourly wind speed and one
hourly precipitation probability. -/
def mkWeather (ws p : ℚ) : Json :=
  Json.obj [("hourly", Json.obj
    [("wind_speed_10m", Json.arr [Json.num ws]),
     ("precipitation_probability", Json.arr [Json.num p])])]

/-- A well-formed MetService payload whose first day has both the short
forecast word and the longer forecast text. -/
def mkForecastDay (word fc : String) : Json :=
  Json.obj [("days", Json.arr
    [Json.obj [("forecastWord", Json.str word), ("forecast", Json.str fc)]])]

/-- A MetService payload whose first day has a forecast word but no
longer "forecast" field. -/
def mkWordOnly (word : String) : Json :=
  Json.obj [("days", Json.arr [Json.obj [("forecastWord", Json.str word)]])]

/-- Modelled from the spec: the integer-truncated (toward zero)
arithmetic mean of the three source scores.  `Int.tdiv` is
truncation-toward-zero division. -/
def truncMean (a b c : ℤ) : ℤ := (a + b + c).tdiv 3

/-- Modelled from the spec (§4.5): the composed message — one line per
source rating, one line for the overall rating, then, only if reasons
were collected, a "Reasons:" block listing each reason on its own
line. -/
def specComposeMessage (r1 r2 r3 : ℤ) (rs : List String) : String :=
  joinNL (["Open-Meteo rating: " ++ toString r1,
           "MetService rating: " ++ toString r2,
           "CawthronEye rating: " ++ toString r3,
           "Overall rating: " ++ toString (truncMean r1 r2 r3)]
    ++ (if rs.isEmpty then [] else "Reasons:" :: rs))

/-- The first exception raised by the field accesses of
`compute_openmeteo_rating`, in source order, if any. -/
def omParseError (marine weather : Json) : Option String :=
  match getWave marine with
  | .error e => some e
  | .ok _ =>
    match getWind weather with
    | .error e => some e
    | .ok _ =>
      match getPrecip weather with
      | .error e => some e
      | .ok _ => none

/-- The keyword score assigned by `compute_metservice_rating` to a
lowercased forecast word. -/
def metWordScore (t : String) : ℤ :=
  if strContains t "rain" || strContains t "shower" then 30
  else if strContains t "fine" || strContains t "clear" || strContains t "sunny" then 90
  else if strContains t "cloud" then 60
  else 60

/- ### Helper lemmas -/

theorem ratTrunc_intCast_div_three (n : ℤ) :
    ratTrunc ((n : ℚ) / 3) = n.tdiv 3 := by
  unfold ratTrunc
  rcases le_or_lt 0 n with hn | hn
  · rw [if_pos (by positivity)]
    have h := Rat.floor_intCast_div_natCast n 3
    norm_num at h
    rw [h, Int.tdiv_eq_ediv hn (by norm_num)]
  · have hq : ((n : ℚ) / 3) < 0 := by
      apply div_neg_of_neg_of_pos _ (by norm_num)
      exact_mod_cast hn
    rw [if_neg (not_le.mpr hq)]
    have h1 : -((n : ℚ) / 3) = ((-n : ℤ) : ℚ) / 3 := by push_cast; ring
    rw [h1]
    have h : (⌊((-n : ℤ) : ℚ) / ((3 : ℕ) : ℚ)⌋ : ℤ) = (-n) / ((3 : ℕ) : ℤ) :=
      Rat.floor_intCast_div_natCast (-n) 3
    have h3q : ((3 : ℕ) : ℚ) = 3 := by norm_num
    have h3z : ((3 : ℕ) : ℤ) = 3 := by norm_num
    rw [h3q, h3z] at h
    rw [h, ← Int.tdiv_eq_ediv (show (0 : ℤ) ≤ -n by omega) (by norm_num),
      Int.neg_tdiv, neg_neg]

theorem overall_eq_truncMean (a b c : ℤ) :
    overall_rating a b c = truncMean a b c := by
  unfold overall_rating truncMean
  have h : ((a : ℚ) + b + c) = ((a + b + c : ℤ) : ℚ) := by push_cast; ring
  rw [h, ratTrunc_intCast_div_three]

theorem joinNL_append (xs ys : List String) (hx : xs ≠ []) (hy : ys ≠ []) :
    joinNL (xs ++ ys) = joinNL xs ++ "\n" ++ joinNL ys := by
  induction xs with
  | nil => exact absurd rfl hx
  | cons x xs ih =>
    cases xs with
    | nil =>
      cases ys with
      | nil => exact absurd rfl hy
      | cons y ys => simp [joinNL, String.append_assoc]
    | cons x2 xs2 =>
      have h2 : joinNL ((x :: x2 :: xs2) ++ ys) =
          x ++ "\n" ++ joinNL ((x2 :: xs2) ++ ys) := rfl
      rw [h2, ih (by simp)]
      simp [joinNL, String.append_assoc]

theorem joinNL_concat_join (xs ys : List String) (hy : ys ≠ []) :
    joinNL (xs ++ [joinNL ys]) = joinNL (xs ++ ys) := by
  cases xs with
  | nil => rfl
  | cons x xs2 =>
    rw [joinNL_append (x :: xs2) [joinNL ys] (by simp) (by simp),
      joinNL_append (x :: xs2) ys (by simp) hy]
    rfl

theorem getWave_mkMarine (w : ℚ) : getWave (mkMarine w) = .ok w := rfl

theorem getWind_mkWeather (ws p : ℚ) : getWind (mkWeather ws p) = .ok ws := rfl

theorem getPrecip_mkWeather (ws p : ℚ) : getPrecip (mkWeather ws p) = .ok p := rfl

theorem pyLower_eq_empty_iff (s : String) : pyLower s = "" ↔ s = "" := by
  cases s with
  | mk data =>
    constructor
    · intro h
      have hd : data.map Char.toLower = [] := congrArg String.data h
      have hdata : data = [] := by simpa using hd
      subst hdata; rfl
    · intro h
      have hdata : data = [] := congrArg String.data h
      subst hdata; rfl

theorem metservice_on_day (word fc : String) :
    compute_metservice_rating (mkForecastDay word fc) =
      some (metWordScore (pyLower word),
        if pyLower word = "" then [] else [fc]) := by
  have h : compute_metservice_rating (mkForecastDay word fc) =
      (if pyLower word = "" then some (metWordScore (pyLower word), ([] : List String))
       else some (metWordScore (pyLower word), [fc])) := rfl
  rw [h]
  split <;> rfl

theorem metservice_word_only (word : String) :
    compute_metservice_rating (mkWordOnly word) =
      some (metWordScore (pyLower word),
        if pyLower word = "" then [] else [""]) := by
  have h : compute_metservice_rating (mkWordOnly word) =
      (if pyLower word = "" then some (metWordScore (pyLower word), ([] : List String))
       else some (metWordScore (pyLower word), [""])) := rfl
  rw [h]
  split <;> rfl

/- ### Claim theorems -/

/-- C3: the overall score computed in `daily_task` is the
integer-truncated (toward zero, not rounded) arithmetic mean of the
three source scores; in particular source scores (90, 60, 40) give 63,
and (90, 60, 41), whose mean is 63.67, also give 63. -/
theorem overall_score_is_truncated_mean :
    (∀ a b c : ℤ, overall_rating a b c = truncMean a b c) ∧
    overall_rating 90 60 40 = 63 ∧ overall_rating 90 60 41 = 63 := by
  refine ⟨overall_eq_truncMean, ?_, ?_⟩ <;> rw [overall_eq_truncMean] <;> decide

/-- C8: the image rating is a pure step function of the mean grayscale
intensity with strict comparisons: mean > 150 gives 90, 80 < mean ≤ 150
gives 70, mean ≤ 80 gives 40; an image of mean exactly 150 scores 70 and
one of mean exactly 80 scores 40. -/
theorem image_rating_step_function :
    (∀ px qx : List ℕ, px ≠ [] → qx ≠ [] → avgIntensity px = avgIntensity qx →
      compute_image_rating (.pixels px) = compute_image_rating (.pixels qx)) ∧
    (∀ px : List ℕ, px ≠ [] →
      compute_image_rating (.pixels px) =
        (if avgIntensity px > 150 then 90
         else if avgIntensity px > 80 then 70 else 40)) ∧
    compute_image_rating (.pixels [150]) = 70 ∧
    compute_image_rating (.pixels [80]) = 40 := by
  have key : ∀ px : List ℕ, px ≠ [] →
      compute_image_rating (.pixels px) =
        (if avgIntensity px > 150 then 90
         else if avgIntensity px > 80 then 70 else 40) := by
    intro px hpx
    simp [compute_image_rating, List.isEmpty_iff, hpx]
  refine ⟨?_, key, ?_, ?_⟩
  · intro px qx hp hq havg
    rw [key px hp, key qx hq, havg]
  · rw [key [150] (by decide)]
    norm_num [avgIntensity]
  · rw [key [80] (by decide)]
    norm_num [avgIntensity]

/-- Witness for C8 at a concrete two-pixel image. -/
theorem image_rating_step_function_witness :
    compute_image_rating (.pixels [100, 200]) =
      (if avgIntensity [100, 200] > 150 then 90
       else if avgIntensity [100, 200] > 80 then 70 else 40) :=
  image_rating_step_function.2.1 [100, 200] (by decide)

/-- C2 (counterexample): a payload whose "days" value is an empty list is
truthy and has the key, so `compute_metservice_rating` reaches
`forecast["days"][0]`, which raises `IndexError` — the failure is not
caught and no score-0/no-data result is produced. -/
theorem metservice_empty_days_raises :
    compute_metservice_rating (Json.obj [("days", Json.arr [])]) = none ∧
    compute_metservice_rating (Json.obj [("days", Json.arr [])]) ≠
      some (0, ["No MetService data"]) := by
  exact ⟨rfl, by decide⟩

/-- C2 (amended): `compute_metservice_rating` catches the absent/falsy
payload and the missing-"days"-key cases, yielding score 0 with the
no-data reason, but an empty "days" sequence escapes the guard and
raises. -/
theorem metservice_no_data_cases :
    (∀ f : Json, pyTruthy f = false →
      compute_metservice_rating f = some (0, ["No MetService data"])) ∧
    (∀ fs : List (String × Json), (∀ p ∈ fs, p.1 ≠ "days") →
      compute_metservice_rating (Json.obj fs) = some (0, ["No MetService data"])) ∧
    compute_metservice_rating (Json.obj [("days", Json.arr [])]) = none := by
  refine ⟨?_, ?_, rfl⟩
  · intro f h
    simp [compute_metservice_rating, h]
  · intro fs h
    cases fs with
    | nil => rfl
    | cons p ps =>
      have hany : (p :: ps).any (fun q => q.1 = "days") = false := by
        simp only [List.any_eq_false]
        intro q hq
        simpa using h q hq
      simp [compute_metservice_rating, pyTruthy, pyMem, hany]

/-- Witness for C2 (amended) at the absent payload and the concrete
empty-"days" payload. -/
theorem metservice_no_data_cases_witness :
    compute_metservice_rating Json.null = some (0, ["No MetService data"]) :=
  metservice_no_data_cases.1 Json.null rfl

/-- C10: a first day with a non-empty forecast word but no longer
"forecast" field yields exactly one reason, the empty string, which
`daily_task` renders as a blank line after "Reasons:" in the message. -/
theorem word_only_blank_reason :
    (∀ word : String, word ≠ "" →
      ∃ r : ℤ, compute_metservice_rating (mkWordOnly word) = some (r, [""])) ∧
    daily_message (mkMarine (1/2)) (mkWeather 5 20) (mkWordOnly "hazy")
        (.pixels [200]) =
      some ("Open-Meteo rating: 100\nMetService rating: 60\nCawthronEye rating: 90\nOverall rating: 83\nReasons:\n") := by
  constructor
  · intro word hw
    rw [metservice_word_only,
      if_neg (fun hemp => hw ((pyLower_eq_empty_iff word).mp hemp))]
    exact ⟨_, rfl⟩
  · have hom : compute_openmeteo_rating (mkMarine (1/2)) (mkWeather 5 20) =
        (100, []) := by
      unfold compute_openmeteo_rating
      rw [getWave_mkMarine, getWind_mkWeather, getPrecip_mkWeather]
      norm_num
    have hmet : compute_metservice_rating (mkWordOnly "hazy") =
        some (60, [""]) := by decide
    have hov : overall_rating 100 60 90 = 83 := by
      rw [overall_eq_truncMean]; decide
    unfold daily_message
    rw [hom, hmet]
    have hcam : compute_image_rating (.pixels [200]) = 90 := by
      norm_num [compute_image_rating, avgIntensity]
    rw [hcam]
    simp only [hov]
    rfl

/-- Witness for C10 at a concrete non-keyword forecast word. -/
theorem word_only_blank_reason_witness :
    ∃ r : ℤ, compute_metservice_rating (mkWordOnly "hazy") = some (r, [""]) :=
  word_only_blank_reason.1 "hazy" (by decide)

/-- C9: the keyword branches of `compute_metservice_rating` are resolved
in the fixed order rain/shower, then fine/clear/sunny, then cloud, so a
forecast word matching several keyword sets takes the first matching
branch; a word containing both "rain" and "sunny" scores 30. -/
theorem metservice_keyword_precedence :
    (∀ word fc : String,
      (strContains (pyLower word) "rain" = true ∨
        strContains (pyLower word) "shower" = true) →
      ∃ rs, compute_metservice_rating (mkForecastDay word fc) = some (30, rs)) ∧
    (∀ word fc : String,
      strContains (pyLower word) "rain" = false →
      strContains (pyLower word) "shower" = false →
      (strContains (pyLower word) "fine" = true ∨
        strContains (pyLower word) "clear" = true ∨
        strContains (pyLower word) "sunny" = true) →
      ∃ rs, compute_metservice_rating (mkForecastDay word fc) = some (90, rs)) ∧
    (∀ word fc : String,
      strContains (pyLower word) "rain" = false →
      strContains (pyLower word) "shower" = false →
      strContains (pyLower word) "fine" = false →
      strContains (pyLower word) "clear" = false →
      strContains (pyLower word) "sunny" = false →
      strContains (pyLower word) "cloud" = true →
      ∃ rs, compute_metservice_rating (mkForecastDay word fc) = some (60, rs)) ∧
    compute_metservice_rating
        (mkForecastDay "Rain turning sunny" "Rain, then sunny spells") =
      some (30, ["Rain, then sunny spells"]) := by
  refine ⟨?_, ?_, ?_, by decide⟩
  · intro word fc h
    have hs : metWordScore (pyLower word) = 30 := by
      rcases h with h | h <;> simp [metWordScore, h]
    exact ⟨_, by rw [metservice_on_day, hs]⟩
  · intro word fc h1 h2 h
    have hs : metWordScore (pyLower word) = 90 := by
      rcases h with h | h | h <;> simp [metWordScore, h1, h2, h]
    exact ⟨_, by rw [metservice_on_day, hs]⟩
  · intro word fc h1 h2 h3 h4 h5 h6
    have hs : metWordScore (pyLower word) = 60 := by
      simp [metWordScore, h1, h2, h3, h4, h5, h6]
    exact ⟨_, by rw [metservice_on_day, hs]⟩

/-- Witness for C9 at the rain-and-sunny forecast word. -/
theorem metservice_keyword_precedence_witness :
    ∃ rs, compute_metservice_rating (mkForecastDay "Rain turning sunny" "x") =
      some (30, rs) :=
  metservice_keyword_precedence.1 "Rain turning sunny" "x" (Or.inl (by decide))

/-- C1 (counterexample): with a well-formed marine payload whose wave
height already triggered the swell penalty and an absent weather payload,
the parse-failure reason is appended after the swell reason, so the
returned list has two elements, not one. -/
theorem openmeteo_partial_failure_two_reasons :
    compute_openmeteo_rating (mkMarine 2) Json.null =
      (0, ["Swell " ++ numRepr 2 ++ " m", parseFailMsg "TypeError"]) ∧
    (compute_openmeteo_rating (mkMarine 2) Json.null).2.length ≠ 1 := by
  have hfull : compute_openmeteo_rating (mkMarine 2) Json.null =
      (0, ["Swell " ++ numRepr 2 ++ " m", parseFailMsg "TypeError"]) := by
    unfold compute_openmeteo_rating
    rw [getWave_mkMarine]
    have hwind : getWind Json.null = Except.error "TypeError" := rfl
    rw [hwind]
    norm_num
  exact ⟨hfull, by rw [hfull]; decide⟩

/-- C1 (amended): on any parse failure `compute_openmeteo_rating`
abandons all partial penalties and returns score 0, with a single reason
describing the parse failure appended as the last element after any
penalty reasons collected before the failure; when the failure happens
at the very first access (in particular when the marine payload is
absent) the reasons list is exactly that single parse-failure reason. -/
theorem openmeteo_parse_failure (marine weather : Json) (e : String)
    (h : omParseError marine weather = some e) :
    (compute_openmeteo_rating marine weather).1 = 0 ∧
    (compute_openmeteo_rating marine weather).2.getLast? =
      some (parseFailMsg e) ∧
    (∀ e2, getWave marine = .error e2 →
      (compute_openmeteo_rating marine weather).2 = [parseFailMsg e2]) := by
  unfold omParseError at h
  unfold compute_openmeteo_rating
  cases hw : getWave marine with
  | error e0 =>
    rw [hw] at h
    simp only [hw] at h ⊢
    cases h
    refine ⟨by norm_num, by simp, ?_⟩
    intro e2 he2
    cases he2
    rfl
  | ok w =>
    rw [hw] at h
    simp only [hw] at h ⊢
    cases hwind : getWind weather with
    | error e0 =>
      rw [hwind] at h
      simp only [hwind] at h ⊢
      cases h
      refine ⟨by norm_num, by simp [List.getLast?_concat], ?_⟩
      intro e2 he2
      simp at he2
    | ok ws =>
      rw [hwind] at h
      simp only [hwind] at h ⊢
      cases hp : getPrecip weather with
      | error e0 =>
        rw [hp] at h
        simp only [hp] at h ⊢
        cases h
        refine ⟨by norm_num, by simp [List.getLast?_concat], ?_⟩
        intro e2 he2
        simp at he2
      | ok p =>
        rw [hp] at h
        simp at h

/-- Witness for C1 (amended) at the absent marine and weather payloads
(both fetches failed). -/
theorem openmeteo_parse_failure_witness :
    (compute_openmeteo_rating Json.null Json.null).1 = 0 ∧
    (compute_openmeteo_rating Json.null Json.null).2.getLast? =
      some (parseFailMsg "TypeError") ∧
    (∀ e2, getWave Json.null = .error e2 →
      (compute_openmeteo_rating Json.null Json.null).2 = [parseFailMsg e2]) :=
  openmeteo_parse_failure Json.null Json.null "TypeError" rfl

/-- C5: with a well-formed input triple whose wave height exceeds 1.0 m,
wind speed exceeds 7.7 m/s and precipitation probability exceeds 50,
the rating is max(0, 100-40-30-30) = 0 with exactly three reasons in the
fixed order swell, wind, chance of rain. -/
theorem openmeteo_all_penalties (w ws p : ℚ)
    (hw : 1 < w) (hws : 77/10 < ws) (hp : 50 < p) :
    compute_openmeteo_rating (mkMarine w) (mkWeather ws p) =
      (max 0 (100 - 40 - 30 - 30),
       ["Swell " ++ numRepr w ++ " m", "Wind " ++ numRepr ws ++ " m/s",
        "Chance of rain"]) := by
  unfold compute_openmeteo_rating
  rw [getWave_mkMarine, getWind_mkWeather, getPrecip_mkWeather]
  simp only [gt_iff_lt, if_pos hw, if_pos hws, if_pos hp]
  norm_num

/-- Witness for C5 at wave 2 m, wind 8 m/s, precipitation 60 %. -/
theorem openmeteo_all_penalties_witness :
    compute_openmeteo_rating (mkMarine 2) (mkWeather 8 60) =
      (max 0 (100 - 40 - 30 - 30),
       ["Swell " ++ numRepr 2 ++ " m", "Wind " ++ numRepr 8 ++ " m/s",
        "Chance of rain"]) :=
  openmeteo_all_penalties 2 8 60 (by norm_num) (by norm_num) (by norm_num)

/-- C6: for a well-formed marine payload and any weather payload whose
wind-speed and precipitation fields parse, the score is reduced by
exactly 40 relative to a non-triggering wave height iff the wave height
exceeds 1.0, independent of the wind and precipitation values. -/
theorem openmeteo_swell_penalty_iff (h : ℚ) (weather : Json) (ws p : ℚ)
    (hwind : getWind weather = .ok ws) (hprecip : getPrecip weather = .ok p) :
    (compute_openmeteo_rating (mkMarine h) weather).1 =
      (compute_openmeteo_rating (mkMarine 0) weather).1 -
        (if 1 < h then 40 else 0) := by
  unfold compute_openmeteo_rating
  rw [getWave_mkMarine, getWave_mkMarine, hwind, hprecip]
  have h0 : ¬ ((0:ℚ) > 1) := by norm_num
  by_cases h1 : h > 1 <;> by_cases h2 : ws > 77/10 <;> by_cases h3 : p > 50 <;>
    simp only [h0, h1, h2, h3, if_pos, if_neg, if_true, if_false,
      gt_iff_lt, not_false_iff] <;>
    norm_num

/-- Witness for C6 at wave 2 m against the baseline wave 0 m, with
wind 8 m/s and precipitation 60 %. -/
theorem openmeteo_swell_penalty_iff_witness :
    (compute_openmeteo_rating (mkMarine 2) (mkWeather 8 60)).1 =
      (compute_openmeteo_rating (mkMarine 0) (mkWeather 8 60)).1 -
        (if (1:ℚ) < 2 then 40 else 0) :=
  openmeteo_swell_penalty_iff 2 (mkWeather 8 60) 8 60 rfl rfl

/-- C7: every score produced by the three rating functions lies in
[0, 100]: the Open-Meteo score for any pair of payloads, the MetService
score whenever the function returns, and the image score for any
input. -/
theorem ratings_in_range :
    (∀ marine weather : Json,
      0 ≤ (compute_openmeteo_rating marine weather).1 ∧
      (compute_openmeteo_rating marine weather).1 ≤ 100) ∧
    (∀ (forecast : Json) (r : ℤ) (rs : List String),
      compute_metservice_rating forecast = some (r, rs) →
      0 ≤ r ∧ r ≤ 100) ∧
    (∀ img : ImageInput,
      0 ≤ compute_image_rating img ∧ compute_image_rating img ≤ 100) := by
  refine ⟨?_, ?_, ?_⟩
  · intro marine weather
    unfold compute_openmeteo_rating
    cases getWave marine with
    | error e => constructor <;> simp
    | ok w =>
      cases getWind weather with
      | error e => dsimp only; constructor <;> simp
      | ok ws =>
        cases getPrecip weather with
        | error e => dsimp only; constructor <;> simp
        | ok p =>
          dsimp only
          refine ⟨le_max_left 0 _, max_le (by norm_num) ?_⟩
          split_ifs <;> norm_num
  · intro forecast r rs hsome
    have hr : r = 0 ∨ r = 30 ∨ r = 60 ∨ r = 90 := by
      simp only [compute_metservice_rating] at hsome
      repeat' split at hsome
      all_goals simp_all
    rcases hr with h | h | h | h <;> subst h <;> norm_num
  · intro img
    cases img with
    | absent => exact ⟨by decide, by decide⟩
    | bad => exact ⟨by decide, by decide⟩
    | pixels px =>
      unfold compute_image_rating
      dsimp only
      split
      · norm_num
      · split
        · norm_num
        · split <;> norm_num

/-- Witness for C7 at a concrete forecast payload on which
`compute_metservice_rating` returns score 90. -/
theorem ratings_in_range_witness : 0 ≤ (90:ℤ) ∧ (90:ℤ) ≤ 100 :=
  ratings_in_range.2.1 (mkForecastDay "fine" "A fine day.") 90 ["A fine day."]
    (by decide)

/-- C4: the composed message is one line per source rating in the order
Open-Meteo, MetService, webcam, then the overall-rating line, then —
only when the two textual sources contributed reasons — a "Reasons:"
block with one reason per line; the webcam rating enters the overall
score but contributes no reasons. -/
theorem daily_message_composition (marine weather forecast : Json)
    (img : ImageInput) (mr : ℤ × List String)
    (hm : compute_metservice_rating forecast = some mr) :
    daily_message marine weather forecast img =
      some (specComposeMessage (compute_openmeteo_rating marine weather).1
        mr.1 (compute_image_rating img)
        ((compute_openmeteo_rating marine weather).2 ++ mr.2)) := by
  unfold daily_message specComposeMessage
  rw [hm]
  simp only [overall_eq_truncMean]
  by_cases hempty : ((compute_openmeteo_rating marine weather).2 ++ mr.2).isEmpty
  · simp [hempty]
  · simp only [hempty, if_false, Bool.false_eq_true]
    rw [joinNL_concat_join _ _ (by simp)]

/-- Witness for C4 at concrete payloads with one swell reason and one
forecast-text reason. -/
theorem daily_message_composition_witness :
    daily_message (mkMarine (3/2)) (mkWeather 5 20)
        (mkForecastDay "fine" "A fine day.") (.pixels [200]) =
      some (specComposeMessage
        (compute_openmeteo_rating (mkMarine (3/2)) (mkWeather 5 20)).1
        (90, ["A fine day."]).1 (compute_image_rating (.pixels [200]))
        ((compute_openmeteo_rating (mkMarine (3/2)) (mkWeather 5 20)).2 ++
          (90, ["A fine day."]).2)) :=
  daily_message_composition (mkMarine (3/2)) (mkWeather 5 20)
    (mkForecastDay "fine" "A fine day.") (.pixels [200])
    (90, ["A fine day."]) (by decide)

end Spearfishing
